import Mathlib

/-!
Shallow embedding of `src/postalcode_loader.py` (class `PostalCodeLoader`),
the proximity-search core of the Postal_Code_ETL repository.

Modelling decisions:

* A pandas `DataFrame` row of the coordinates CSV is a `Record` with the
  columns `PostalCode`, `City`, `Latitude`, `Longitude`; a missing (NaN)
  coordinate is `none`.  Numeric values are embedded as `ℚ` (the Python
  floats are finite decimals read from a CSV; no claim depends on float
  rounding).
* `pd.read_csv` assigns the default `RangeIndex 0..n-1`; `dropna` keeps the
  original index labels.  We embed the frame as a `List (ℕ × Record)` of
  (index label, row) pairs built by `indexed`, and `dropna` as a filter
  that keeps the labels.
* `geopy.distance.geodesic(...).kilometers` is a pure function of the two
  coordinate pairs; it is embedded as an explicit parameter
  `dist : ℚ × ℚ → ℚ × ℚ → ℚ`, so every theorem holds for the actual
  geodesic. Likewise `math.cos(math.radians lat)` in the bounding-box
  variant is a parameter `cosr : ℚ → ℚ`.
* The Python functions print a message and return `None` on failure, and
  `Series.drop` raises `KeyError` when a label is absent from the axis;
  both are embedded as `Except SearchError`.  The initial
  `os.path.exists` check concerns the external CSV collaborator: the
  embedding receives the already-materialised table `df0` instead.
-/

/-- One row of `{country}_postal_codes_and_coordinates.csv`. -/
structure Record where
  postalCode : String
  city : String
  latitude : Option ℚ
  longitude : Option ℚ
deriving DecidableEq, Repr

/-- The failure modes of the two search methods in `postalcode_loader.py`:
`missingReference` is the `"No reference place was provided"` early return,
`referenceNotFound` is the `"Reference place not found"` early return, and
`keyError` is the `KeyError` that `pandas.Series.drop` raises when one of
the labels to drop is not present in the series. -/
inductive SearchError
  | missingReference
  | referenceNotFound
  | keyError
deriving DecidableEq, Repr

/-- The pandas `RangeIndex`: pair each row with its index label `i, i+1, …`. -/
def indexed : List Record → ℕ → List (ℕ × Record)
  | [], _ => []
  | r :: rs, i => (i, r) :: indexed rs (i + 1)

/-- `postal_codes_df.dropna(subset=["Longitude", 'Latitude'], how='any')`:
keep the rows that have both coordinates, preserving index labels. -/
def dropna (df : List (ℕ × Record)) : List (ℕ × Record) :=
  df.filter fun p => p.2.latitude.isSome && p.2.longitude.isSome

/-- The frame both methods work on: `read_csv` followed by `dropna`. -/
def geocoded (df0 : List Record) : List (ℕ × Record) :=
  dropna (indexed df0 0)

/-- The `(row['Latitude'], row['Longitude'])` pair of a coordinate-complete
row (the `getD` default is never read on rows that survived `dropna`). -/
def coord (r : Record) : ℚ × ℚ :=
  (r.latitude.getD 0, r.longitude.getD 0)

/-- Reference resolution of `find_nearby_postal_codes_by_distance`
(lines 134-142): `if reference_postal_code is not None: ... elif
reference_city is not None: ... else: return`.  `none` is the
`"No reference place was provided"` branch. -/
def referenceRows (df : List (ℕ × Record)) (refCode refCity : Option String) :
    Option (List (ℕ × Record)) :=
  match refCode with
  | some c => some (df.filter fun p => p.2.postalCode == c)
  | none =>
    match refCity with
    | some c => some (df.filter fun p => p.2.city == c)
    | none => none

/-- `find_nearby_postal_codes_by_distance` (lines 101-158), with the
geodesic embedded as the parameter `dist`.  The result keeps the pandas
index labels alongside the `PostalCode` strings of the selected series. -/
def find_nearby_postal_codes_by_distance (dist : ℚ × ℚ → ℚ × ℚ → ℚ)
    (df0 : List Record) (refCode refCity : Option String) (radius_km : ℚ) :
    Except SearchError (List (ℕ × String)) :=
  let df := geocoded df0
  match referenceRows df refCode refCity with
  | none => .error .missingReference
  | some referenceRow =>
    match referenceRow.head? with
    | none => .error .referenceNotFound
    | some r0 =>
      let refC := coord r0.2
      .ok (((df.filter fun p =>
          decide (0 < dist (coord p.2) refC) &&
          decide (dist (coord p.2) refC < radius_km)).map
        fun p => (p.1, p.2.postalCode)))

/-- The inclusive bounding-box membership test of
`find_nearby_postal_codes_by_bounding` (lines 65-76), with
`math.cos(math.radians ·)` embedded as the parameter `cosr`. -/
def inBoundingBox (cosr : ℚ → ℚ) (lat0 lon0 radius_km : ℚ) (r : Record) : Bool :=
  decide (lat0 - radius_km / 110.574 ≤ (coord r).1) &&
  decide ((coord r).1 ≤ lat0 + radius_km / 110.574) &&
  decide (lon0 - radius_km / (111.32 * cosr lat0) ≤ (coord r).2) &&
  decide ((coord r).2 ≤ lon0 + radius_km / (111.32 * cosr lat0))

/-- The `nearby_postal_codes` series right after the bounding-box filter
(lines 73-76), before the reference-row exclusion (`drop`) step. -/
def boundingPrefilter (cosr : ℚ → ℚ) (df : List (ℕ × Record))
    (lat0 lon0 radius_km : ℚ) : List (ℕ × Record) :=
  df.filter fun p => inBoundingBox cosr lat0 lon0 radius_km p.2

/-- `find_nearby_postal_codes_by_bounding` (lines 19-81).  The final
`nearby_postal_codes.drop(reference_row.index)` removes every label of
`reference_row` from the filtered series and raises `KeyError` if any of
those labels is absent (pandas `errors='raise'` default). -/
def find_nearby_postal_codes_by_bounding (cosr : ℚ → ℚ)
    (df0 : List Record) (refCode : Option String) (radius_km : ℚ) :
    Except SearchError (List (ℕ × String)) :=
  let df := geocoded df0
  match refCode with
  | none => .error .missingReference
  | some c =>
    let referenceRow := df.filter fun p => p.2.postalCode == c
    match referenceRow.head? with
    | none => .error .referenceNotFound
    | some r0 =>
      let lat0 := (coord r0.2).1
      let lon0 := (coord r0.2).2
      let nearby := (boundingPrefilter cosr df lat0 lon0 radius_km).map
        fun p => (p.1, p.2.postalCode)
      if referenceRow.all fun q => (nearby.map Prod.fst).contains q.1 then
        .ok (nearby.filter fun q => !((referenceRow.map Prod.fst).contains q.1))
      else
        .error .keyError

/-! ### Helper lemmas about the indexed frame -/

/-- A row of the indexed frame is a row of the CSV, with label at least
the starting label. -/
theorem mem_indexed (rs : List Record) (i j : ℕ) (r : Record)
    (h : (j, r) ∈ indexed rs i) : r ∈ rs ∧ i ≤ j := by
  induction rs generalizing i with
  | nil => cases h
  | cons a as ih =>
    rcases List.mem_cons.mp h with h1 | h1
    · simp only [Prod.mk.injEq] at h1
      exact ⟨h1.2 ▸ List.mem_cons_self a as, le_of_eq h1.1.symm⟩
    · rcases ih (i + 1) h1 with ⟨h2, h3⟩
      exact ⟨List.mem_cons_of_mem _ h2, le_trans (Nat.le_succ i) h3⟩

/-- Index labels identify rows: the `RangeIndex` assigns distinct labels. -/
theorem indexed_functional (rs : List Record) (i j : ℕ) (r r' : Record)
    (h : (j, r) ∈ indexed rs i) (h' : (j, r') ∈ indexed rs i) : r = r' := by
  induction rs generalizing i with
  | nil => cases h
  | cons a as ih =>
    rcases List.mem_cons.mp h with h1 | h1
    · simp only [Prod.mk.injEq] at h1
      rcases List.mem_cons.mp h' with h2 | h2
      · simp only [Prod.mk.injEq] at h2
        exact h1.2.trans h2.2.symm
      · exact absurd (mem_indexed as (i + 1) j r' (h1.1 ▸ h2)).2 (by omega)
    · rcases List.mem_cons.mp h' with h2 | h2
      · simp only [Prod.mk.injEq] at h2
        exact absurd (mem_indexed as (i + 1) j r (h2.1 ▸ h1)).2 (by omega)
      · exact ih (i + 1) h1 h2

/-- Index labels still identify rows after `dropna`. -/
theorem geocoded_functional (df0 : List Record) (j : ℕ) (r r' : Record)
    (h : (j, r) ∈ geocoded df0) (h' : (j, r') ∈ geocoded df0) : r = r' :=
  indexed_functional df0 0 j r r' (List.mem_filter.mp h).1 (List.mem_filter.mp h').1

/-! ### Concrete data used by witnesses and counterexamples -/

/-- A stand-in instantiation of the geodesic parameter for concrete
witnesses: squared Euclidean distance on the coordinate plane (any
function with `d p p = 0` works; the theorems are parametric in `dist`). -/
def sqDist (p q : ℚ × ℚ) : ℚ := (p.1 - q.1) ^ 2 + (p.2 - q.2) ^ 2

/-- The spec's concrete Berlin/Hamburg/Munich scenario (integer-rounded
coordinates; the claims under test do not depend on the decimals). -/
def exDf : List Record :=
  [⟨"10115", "Berlin", some 52, some 13⟩,
   ⟨"20095", "Hamburg", some 53, some 9⟩,
   ⟨"80331", "Munich", some 48, some 11⟩]

/-- The resolved reference row of `exDf` for the selector `"10115"`. -/
def exRef : ℕ × Record := (0, ⟨"10115", "Berlin", some 52, some 13⟩)

theorem sqDist_self (p : ℚ × ℚ) : sqDist p p = 0 := by simp [sqDist]

/-! ### C1 -/

/-- C1: for every dataset and successfully resolved reference, the
exact-distance search returns exactly the records of the
coordinate-complete frame whose distance to the reference coordinates lies
in the open interval `(0, radius_km)` — both bounds strict — and in
particular (second conjunct) any record located exactly at the reference
coordinates, the reference row itself included, is excluded. -/
theorem distance_search_selects_open_interval
    (dist : ℚ × ℚ → ℚ × ℚ → ℚ) (df0 : List Record)
    (refCode refCity : Option String) (radius_km : ℚ)
    (referenceRow : List (ℕ × Record)) (r0 : ℕ × Record) (res : List (ℕ × String))
    (hrows : referenceRows (geocoded df0) refCode refCity = some referenceRow)
    (hhead : referenceRow.head? = some r0)
    (hself : ∀ p, dist p p = 0)
    (h : find_nearby_postal_codes_by_distance dist df0 refCode refCity radius_km = .ok res) :
    (∀ i code, (i, code) ∈ res ↔
      ∃ rec, (i, rec) ∈ geocoded df0 ∧ rec.postalCode = code ∧
        0 < dist (coord rec) (coord r0.2) ∧ dist (coord rec) (coord r0.2) < radius_km) ∧
    ∀ i rec, (i, rec) ∈ geocoded df0 → coord rec = coord r0.2 →
      (i, rec.postalCode) ∉ res := by
  simp only [find_nearby_postal_codes_by_distance, hrows, hhead, Except.ok.injEq] at h
  subst h
  constructor
  · intro i code
    simp only [List.mem_map, List.mem_filter, Bool.and_eq_true, decide_eq_true_eq,
      Prod.mk.injEq]
    constructor
    · rintro ⟨⟨j, rec⟩, ⟨hmem, hd0, hdr⟩, hi, hcode⟩
      exact ⟨rec, hi ▸ hmem, hcode, hd0, hdr⟩
    · rintro ⟨rec, hmem, hcode, hd0, hdr⟩
      exact ⟨(i, rec), ⟨hmem, hd0, hdr⟩, rfl, hcode⟩
  · intro i rec hmem hco hin
    simp only [List.mem_map, List.mem_filter, Bool.and_eq_true, decide_eq_true_eq,
      Prod.mk.injEq] at hin
    rcases hin with ⟨⟨j, rec'⟩, ⟨hmem', hd0, _⟩, hi, _⟩
    have hrr : rec' = rec := geocoded_functional df0 i rec' rec (hi ▸ hmem') hmem
    rw [hrr, hco, hself] at hd0
    exact lt_irrefl 0 hd0

/-- Witness for C1 on the Berlin/Hamburg/Munich dataset with radius 50 and
the `sqDist` instantiation of the geodesic parameter: the reference row at
the reference coordinates is excluded from the concrete result. -/
theorem distance_search_selects_open_interval_witness :
    ((0 : ℕ), "10115") ∉ [((1 : ℕ), "20095"), (2, "80331")] :=
  (distance_search_selects_open_interval sqDist exDf (some "10115") none 50
    [exRef] exRef [(1, "20095"), (2, "80331")]
    (by simp [referenceRows, geocoded, dropna, indexed, exDf, exRef,
      List.filter_cons, List.filter_nil])
    rfl
    sqDist_self
    (by simp [find_nearby_postal_codes_by_distance, referenceRows, geocoded, dropna,
      indexed, exDf, exRef, coord, sqDist, List.filter_cons, List.filter_nil,
      List.head?]; norm_num)).2
    0 (Record.mk "10115" "Berlin" (some 52) (some 13))
    (by simp [geocoded, dropna, indexed, exDf]) rfl

/-! ### Generic facts about `List.contains` on index labels -/

theorem contains_eq_false_iff (l : List ℕ) (a : ℕ) : l.contains a = false ↔ a ∉ l := by
  simp

theorem contains_eq_true_iff (l : List ℕ) (a : ℕ) : l.contains a = true ↔ a ∈ l := by
  simp

/-! ### C2 -/

/-- C2: with the reference resolved to the first row matching the postal
code, the bounding-box step selects precisely the coordinate-complete rows
whose latitude lies in the inclusive interval
`[lat0 - R/110.574, lat0 + R/110.574]` and whose longitude lies in the
inclusive interval `[lon0 - R/(111.32·cos(lat0 rad)), lon0 + R/(111.32·cos(lat0 rad))]`,
before the reference-row exclusion step. -/
theorem bounding_prefilter_selects_inclusive_box
    (cosr : ℚ → ℚ) (df0 : List Record) (c : String) (radius_km : ℚ)
    (r0 : ℕ × Record)
    (hhead : ((geocoded df0).filter fun p => p.2.postalCode == c).head? = some r0)
    (p : ℕ × Record) :
    p ∈ boundingPrefilter cosr (geocoded df0) (coord r0.2).1 (coord r0.2).2 radius_km ↔
      p ∈ geocoded df0 ∧
      (coord r0.2).1 - radius_km / 110.574 ≤ (coord p.2).1 ∧
      (coord p.2).1 ≤ (coord r0.2).1 + radius_km / 110.574 ∧
      (coord r0.2).2 - radius_km / (111.32 * cosr (coord r0.2).1) ≤ (coord p.2).2 ∧
      (coord p.2).2 ≤ (coord r0.2).2 + radius_km / (111.32 * cosr (coord r0.2).1) := by
  simp only [boundingPrefilter, List.mem_filter, inBoundingBox, Bool.and_eq_true,
    decide_eq_true_eq]
  tauto

/-- Witness for C2: the Hamburg row against the Berlin reference with
radius 300 and `cosr = 1`. -/
theorem bounding_prefilter_selects_inclusive_box_witness :
    ((1 : ℕ), Record.mk "20095" "Hamburg" (some 53) (some 9)) ∈
      boundingPrefilter (fun _ => 1) (geocoded exDf) (coord exRef.2).1 (coord exRef.2).2 300 ↔
      ((1 : ℕ), Record.mk "20095" "Hamburg" (some 53) (some 9)) ∈ geocoded exDf ∧
      (coord exRef.2).1 - 300 / 110.574 ≤
        (coord ((1 : ℕ), Record.mk "20095" "Hamburg" (some 53) (some 9)).2).1 ∧
      (coord ((1 : ℕ), Record.mk "20095" "Hamburg" (some 53) (some 9)).2).1 ≤
        (coord exRef.2).1 + 300 / 110.574 ∧
      (coord exRef.2).2 - 300 / (111.32 * (fun _ => (1 : ℚ)) (coord exRef.2).1) ≤
        (coord ((1 : ℕ), Record.mk "20095" "Hamburg" (some 53) (some 9)).2).2 ∧
      (coord ((1 : ℕ), Record.mk "20095" "Hamburg" (some 53) (some 9)).2).2 ≤
        (coord exRef.2).2 + 300 / (111.32 * (fun _ => (1 : ℚ)) (coord exRef.2).1) :=
  bounding_prefilter_selects_inclusive_box (fun _ => 1) exDf "10115" 300 exRef
    (by simp [geocoded, dropna, indexed, exDf, exRef, List.filter_cons,
      List.filter_nil, List.head?])
    ((1 : ℕ), Record.mk "20095" "Hamburg" (some 53) (some 9))

/-! ### C3 -/

/-- A dataset with two rows sharing the postal code `"A"` and the exact
same coordinates: per C3, the second row's code should remain in the
bounding-box result when `"A"` is the reference. -/
def dupSameDf : List Record :=
  [⟨"A", "X", some 0, some 0⟩, ⟨"A", "X", some 0, some 0⟩]

/-- Counterexample to C3: the duplicate row with the same postal code as
the reference is inside the box, yet the result is empty — pandas
`drop(reference_row.index)` removes every row matching the reference code,
not only the single resolved row. -/
theorem bounding_drop_removes_code_duplicates :
    find_nearby_postal_codes_by_bounding (fun _ => 1) dupSameDf (some "A") 50 =
      .ok [] := by
  simp [find_nearby_postal_codes_by_bounding, boundingPrefilter, inBoundingBox,
    geocoded, dropna, indexed, dupSameDf, coord, List.filter_cons, List.filter_nil,
    List.head?]
  norm_num

/-- C3 as amended: the exclusion is by index identity over all rows whose
`PostalCode` equals the reference code.  A record inside the box remains in
the result exactly when its postal code differs from the reference code —
so a duplicate at the same coordinates but with a different code is kept,
while every row sharing the reference code is excluded. -/
theorem bounding_excludes_exactly_reference_code_rows
    (cosr : ℚ → ℚ) (df0 : List Record) (c : String) (radius_km : ℚ)
    (r0 : ℕ × Record) (res : List (ℕ × String))
    (hhead : ((geocoded df0).filter fun p => p.2.postalCode == c).head? = some r0)
    (h : find_nearby_postal_codes_by_bounding cosr df0 (some c) radius_km = .ok res) :
    ∀ i code, (i, code) ∈ res ↔
      ∃ rec, (i, rec) ∈ geocoded df0 ∧ rec.postalCode = code ∧
        inBoundingBox cosr (coord r0.2).1 (coord r0.2).2 radius_km rec = true ∧
        rec.postalCode ≠ c := by
  simp only [find_nearby_postal_codes_by_bounding, hhead] at h
  split at h
  case isFalse => cases h
  case isTrue hall =>
    simp only [Except.ok.injEq] at h
    subst h
    intro i code
    simp only [List.mem_filter, List.mem_map, boundingPrefilter, Bool.not_eq_true',
      contains_eq_false_iff, Prod.mk.injEq]
    constructor
    · rintro ⟨⟨a, ⟨hmem, hbox⟩, hai, hacode⟩, hnot⟩
      have hmem' : (i, a.2) ∈ geocoded df0 := by rw [← hai]; exact hmem
      refine ⟨a.2, hmem', hacode, hbox, ?_⟩
      intro hc
      exact hnot ⟨a, ⟨hmem, beq_iff_eq.mpr hc⟩, hai⟩
    · rintro ⟨rec, hmem, hcode, hbox, hne⟩
      refine ⟨⟨(i, rec), ⟨hmem, hbox⟩, rfl, hcode⟩, ?_⟩
      rintro ⟨a, ⟨hamem, hac⟩, hai⟩
      have ha2 : a.2 = rec :=
        geocoded_functional df0 i a.2 rec (by rw [← hai]; exact hamem) hmem
      exact hne (ha2 ▸ beq_iff_eq.mp hac)

/-- A dataset where a different postal code `"B"` sits at the exact same
coordinates as the reference code `"A"`. -/
def dupOtherDf : List Record :=
  [⟨"A", "X", some 0, some 0⟩, ⟨"B", "X", some 0, some 0⟩]

/-- Witness for the amended C3: on `dupOtherDf` the co-located record with
the different code `"B"` is in the result. -/
theorem bounding_excludes_exactly_reference_code_rows_witness :
    ((1 : ℕ), "B") ∈ [((1 : ℕ), "B")] ↔
      ∃ rec, ((1 : ℕ), rec) ∈ geocoded dupOtherDf ∧ rec.postalCode = "B" ∧
        inBoundingBox (fun _ => 1) (coord (0, Record.mk "A" "X" (some 0) (some 0)).2).1
          (coord (0, Record.mk "A" "X" (some 0) (some 0)).2).2 50 rec = true ∧
        rec.postalCode ≠ "A" :=
  bounding_excludes_exactly_reference_code_rows (fun _ => 1) dupOtherDf "A" 50
    (0, Record.mk "A" "X" (some 0) (some 0)) [(1, "B")]
    (by simp [geocoded, dropna, indexed, dupOtherDf, List.filter_cons,
      List.filter_nil, List.head?])
    (by simp [find_nearby_postal_codes_by_bounding, boundingPrefilter, inBoundingBox,
      geocoded, dropna, indexed, dupOtherDf, coord, List.filter_cons, List.filter_nil,
      List.head?]; norm_num)
    1 "B"

/-! ### C4 -/

/-- C4: monotonicity of the exact-distance search in the radius — for
`r1 < r2`, every pair selected at radius `r1` is selected at radius `r2`. -/
theorem distance_search_monotone
    (dist : ℚ × ℚ → ℚ × ℚ → ℚ) (df0 : List Record)
    (refCode refCity : Option String) (r1 r2 : ℚ)
    (res1 res2 : List (ℕ × String))
    (h1 : find_nearby_postal_codes_by_distance dist df0 refCode refCity r1 = .ok res1)
    (h2 : find_nearby_postal_codes_by_distance dist df0 refCode refCity r2 = .ok res2)
    (hr : r1 < r2) :
    ∀ x, x ∈ res1 → x ∈ res2 := by
  cases hrows : referenceRows (geocoded df0) refCode refCity with
  | none =>
    simp only [find_nearby_postal_codes_by_distance, hrows] at h1
    exact Except.noConfusion h1
  | some rows =>
    cases hhead : rows.head? with
    | none =>
      simp only [find_nearby_postal_codes_by_distance, hrows, hhead] at h1
      exact Except.noConfusion h1
    | some r0 =>
      simp only [find_nearby_postal_codes_by_distance, hrows, hhead,
        Except.ok.injEq] at h1 h2
      subst h1; subst h2
      intro x hx
      rcases List.mem_map.mp hx with ⟨p, hp, hpx⟩
      rcases List.mem_filter.mp hp with ⟨hmem, hcond⟩
      refine List.mem_map.mpr ⟨p, List.mem_filter.mpr ⟨hmem, ?_⟩, hpx⟩
      simp only [Bool.and_eq_true, decide_eq_true_eq] at hcond ⊢
      exact ⟨hcond.1, lt_trans hcond.2 hr⟩

/-- Witness for C4: radii 18 < 50 on the Berlin/Hamburg/Munich dataset. -/
theorem distance_search_monotone_witness :
    ((1 : ℕ), "20095") ∈ [((1 : ℕ), "20095"), (2, "80331")] :=
  distance_search_monotone sqDist exDf (some "10115") none 18 50
    [(1, "20095")] [(1, "20095"), (2, "80331")]
    (by simp [find_nearby_postal_codes_by_distance, referenceRows, geocoded, dropna,
      indexed, exDf, coord, sqDist, List.filter_cons, List.filter_nil, List.head?]
        <;> norm_num)
    (by simp [find_nearby_postal_codes_by_distance, referenceRows, geocoded, dropna,
      indexed, exDf, coord, sqDist, List.filter_cons, List.filter_nil, List.head?]
        <;> norm_num)
    (by norm_num)
    (1, "20095") (by simp)

/-! ### C5 -/

/-- A dataset in which no row has both coordinates present. -/
def noGeoDf : List Record :=
  [⟨"A", "X", none, some 0⟩, ⟨"B", "Y", some 1, none⟩]

/-- Counterexample to C5: on a dataset with zero coordinate-complete rows,
both searches fail with the `"Reference place not found"` condition
(`referenceNotFound`) — the code has no distinct `NoGeocodedData` branch,
contrary to the claim that the failure is "not ReferenceNotFound". -/
theorem no_geocoded_fails_with_reference_not_found_cex :
    find_nearby_postal_codes_by_distance sqDist noGeoDf (some "A") none 50 =
      .error .referenceNotFound ∧
    find_nearby_postal_codes_by_bounding (fun _ => 1) noGeoDf (some "A") 50 =
      .error .referenceNotFound := by
  constructor <;>
    simp [find_nearby_postal_codes_by_distance, find_nearby_postal_codes_by_bounding,
      referenceRows, geocoded, dropna, indexed, noGeoDf,
      List.filter_cons, List.filter_nil, List.head?]

/-- C5 as amended: when no record has both coordinates, both searches do
fail and return no result, but through the `referenceNotFound` condition
(the empty frame makes the reference lookup come up empty); there is no
distinct `NoGeocodedData` condition in the code. -/
theorem no_geocoded_fails_with_reference_not_found
    (dist : ℚ × ℚ → ℚ × ℚ → ℚ) (cosr : ℚ → ℚ) (df0 : List Record)
    (c : String) (refCity : Option String) (radius_km : ℚ)
    (hng : ∀ rec ∈ df0, rec.latitude = none ∨ rec.longitude = none) :
    find_nearby_postal_codes_by_distance dist df0 (some c) refCity radius_km =
      .error .referenceNotFound ∧
    find_nearby_postal_codes_by_bounding cosr df0 (some c) radius_km =
      .error .referenceNotFound := by
  have hgeo : geocoded df0 = [] := by
    rw [geocoded, dropna, List.filter_eq_nil_iff]
    rintro ⟨j, rec⟩ hmem
    rcases hng rec (mem_indexed df0 0 j rec hmem).1 with h | h <;> simp [h]
  constructor
  · simp only [find_nearby_postal_codes_by_distance, referenceRows, hgeo,
      List.filter_nil, List.head?]
  · simp only [find_nearby_postal_codes_by_bounding, hgeo, List.filter_nil, List.head?]

/-- Witness for the amended C5, at radius 7 with a different `cosr`. -/
theorem no_geocoded_fails_with_reference_not_found_witness :
    find_nearby_postal_codes_by_distance sqDist noGeoDf (some "A") none 7 =
      .error .referenceNotFound ∧
    find_nearby_postal_codes_by_bounding (fun _ => 2) noGeoDf (some "A") 7 =
      .error .referenceNotFound :=
  no_geocoded_fails_with_reference_not_found sqDist (fun _ => 2) noGeoDf "A" none 7
    (by
      intro rec hrec
      simp only [noGeoDf, List.mem_cons, List.not_mem_nil] at hrec
      rcases hrec with h | h | h
      · left; rw [h]
      · right; rw [h]
      · cases h)

/-! ### C6 -/

/-- Counterexample to C6: neither search validates the radius.  With
`radius_km = 0` the exact-distance search returns a normal (empty) result,
not a failure condition; with `radius_km = -1` the bounding-box search
raises an uncaught `KeyError` from `drop` rather than returning a
recoverable `InvalidRadius` diagnostic. -/
theorem invalid_radius_not_rejected_cex :
    find_nearby_postal_codes_by_distance sqDist exDf (some "10115") none 0 = .ok [] ∧
    find_nearby_postal_codes_by_bounding (fun _ => 1) exDf (some "10115") (-1) =
      .error .keyError := by
  constructor
  · simp [find_nearby_postal_codes_by_distance, referenceRows, geocoded, dropna,
      indexed, exDf, coord, sqDist, List.filter_cons, List.filter_nil, List.head?]
    norm_num
  · simp [find_nearby_postal_codes_by_bounding, boundingPrefilter, inBoundingBox,
      geocoded, dropna, indexed, exDf, coord, List.filter_cons, List.filter_nil,
      List.head?]
    norm_num

/-- C6 as amended: with a resolvable reference and `radius_km ≤ 0`, the
exact-distance search returns the normal empty result `.ok []` (no
`InvalidRadius` condition exists), and with `radius_km < 0` the
bounding-box search ends in the uncaught `KeyError` of the `drop` step. -/
theorem invalid_radius_behaviour
    (dist : ℚ × ℚ → ℚ × ℚ → ℚ) (cosr : ℚ → ℚ) (df0 : List Record)
    (c : String) (refCity : Option String) (radius_km : ℚ)
    (rows : List (ℕ × Record)) (r0 : ℕ × Record)
    (hrows : referenceRows (geocoded df0) (some c) refCity = some rows)
    (hhead : rows.head? = some r0) :
    (radius_km ≤ 0 →
      find_nearby_postal_codes_by_distance dist df0 (some c) refCity radius_km = .ok []) ∧
    (radius_km < 0 →
      find_nearby_postal_codes_by_bounding cosr df0 (some c) radius_km =
        .error .keyError) := by
  have hrows' : rows = (geocoded df0).filter fun p => p.2.postalCode == c := by
    simp only [referenceRows, Option.some.injEq] at hrows
    exact hrows.symm
  have hr0 : r0 ∈ rows := List.mem_of_mem_head? (by rw [hhead]; rfl)
  constructor
  · intro hr
    simp only [find_nearby_postal_codes_by_distance, hrows, hhead, Except.ok.injEq]
    have hfil : ((geocoded df0).filter fun p =>
        decide (0 < dist (coord p.2) (coord r0.2)) &&
        decide (dist (coord p.2) (coord r0.2) < radius_km)) = [] := by
      rw [List.filter_eq_nil_iff]
      intro a _
      simp only [Bool.and_eq_true, decide_eq_true_eq, not_and]
      intro h0 hlt
      linarith
    rw [hfil]
    rfl
  · intro hr
    have hpre : boundingPrefilter cosr (geocoded df0)
        (coord r0.2).1 (coord r0.2).2 radius_km = [] := by
      rw [boundingPrefilter, List.filter_eq_nil_iff]
      intro a _
      simp only [inBoundingBox, Bool.and_eq_true, decide_eq_true_eq, not_and]
      intro h1 h2
      obtain ⟨⟨hA, hB⟩, hC⟩ := h1
      have hdiv : radius_km / 110.574 < 0 := div_neg_of_neg_of_pos hr (by norm_num)
      exact absurd (le_trans hA hB) (by linarith)
    simp only [find_nearby_postal_codes_by_bounding, ← hrows', hhead, hpre,
      List.map_nil]
    rw [if_neg]
    intro hall
    have := List.all_eq_true.mp hall r0 hr0
    simp [List.contains] at this

/-- Witness for the amended C6 at `radius_km = -1`. -/
theorem invalid_radius_behaviour_witness :
    find_nearby_postal_codes_by_distance sqDist exDf (some "10115") none (-1) = .ok [] ∧
    find_nearby_postal_codes_by_bounding (fun _ => 1) exDf (some "10115") (-1) =
      .error .keyError :=
  ⟨(invalid_radius_behaviour sqDist (fun _ => 1) exDf "10115" none (-1) [exRef] exRef
      (by simp [referenceRows, geocoded, dropna, indexed, exDf, exRef,
        List.filter_cons, List.filter_nil]) rfl).1 (by norm_num),
   (invalid_radius_behaviour sqDist (fun _ => 1) exDf "10115" none (-1) [exRef] exRef
      (by simp [referenceRows, geocoded, dropna, indexed, exDf, exRef,
        List.filter_cons, List.filter_nil]) rfl).2 (by norm_num)⟩

/-! ### C7 -/

/-- Counterexample to C7: supplying both a postal-code selector and a city
selector does not make the operation fail — it returns a normal result
(the postal-code branch wins the `if/elif` chain). -/
theorem both_selectors_still_succeed_cex :
    find_nearby_postal_codes_by_distance sqDist exDf (some "10115") (some "Hamburg") 18 =
      .ok [(1, "20095")] := by
  simp [find_nearby_postal_codes_by_distance, referenceRows, geocoded, dropna,
    indexed, exDf, coord, sqDist, List.filter_cons, List.filter_nil, List.head?]
  norm_num

/-- C7 as amended: the selectors are not mutually exclusive.  When both are
supplied the postal-code selector takes precedence (the city selector is
ignored entirely), and the operation fails with `missingReference` only
when neither selector is supplied. -/
theorem postal_code_selector_takes_precedence
    (dist : ℚ × ℚ → ℚ × ℚ → ℚ) (df0 : List Record)
    (c city : String) (radius_km : ℚ) :
    find_nearby_postal_codes_by_distance dist df0 (some c) (some city) radius_km =
      find_nearby_postal_codes_by_distance dist df0 (some c) none radius_km ∧
    find_nearby_postal_codes_by_distance dist df0 none none radius_km =
      .error .missingReference :=
  ⟨rfl, rfl⟩

/-! ### C8 -/

/-- C8: in both search variants, a CSV row missing its latitude or its
longitude never contributes a pair to the returned result — no result pair
carries the index label of such a row. -/
theorem missing_coordinates_never_in_results
    (dist : ℚ × ℚ → ℚ × ℚ → ℚ) (cosr : ℚ → ℚ) (df0 : List Record)
    (refCode refCity : Option String) (radius_km : ℚ)
    (res res' : List (ℕ × String)) :
    (find_nearby_postal_codes_by_distance dist df0 refCode refCity radius_km = .ok res →
      ∀ i rec code, (i, rec) ∈ indexed df0 0 →
        (rec.latitude = none ∨ rec.longitude = none) → (i, code) ∉ res) ∧
    (find_nearby_postal_codes_by_bounding cosr df0 refCode radius_km = .ok res' →
      ∀ i rec code, (i, rec) ∈ indexed df0 0 →
        (rec.latitude = none ∨ rec.longitude = none) → (i, code) ∉ res') := by
  have key : ∀ (i : ℕ) (rec : Record), (i, rec) ∈ indexed df0 0 →
      (rec.latitude = none ∨ rec.longitude = none) →
      ∀ rec', (i, rec') ∈ geocoded df0 → False := by
    intro i rec hmem hnone rec' hmem'
    obtain ⟨hidx, hsome⟩ := List.mem_filter.mp hmem'
    have heq : rec' = rec := indexed_functional df0 0 i rec' rec hidx hmem
    subst heq
    rcases hnone with h | h <;> simp [h] at hsome
  constructor
  · intro h i rec code hmem hnone hin
    cases hrows : referenceRows (geocoded df0) refCode refCity with
    | none =>
      simp only [find_nearby_postal_codes_by_distance, hrows] at h
      exact Except.noConfusion h
    | some rows =>
      cases hhead2 : rows.head? with
      | none =>
        simp only [find_nearby_postal_codes_by_distance, hrows, hhead2] at h
        exact Except.noConfusion h
      | some r0 =>
        simp only [find_nearby_postal_codes_by_distance, hrows, hhead2,
          Except.ok.injEq] at h
        subst h
        rcases List.mem_map.mp hin with ⟨p, hp, hpx⟩
        obtain ⟨hgeo, _⟩ := List.mem_filter.mp hp
        have hpi : p.1 = i := congrArg Prod.fst hpx
        exact key i rec hmem hnone p.2 (by rw [← hpi]; exact hgeo)
  · intro h i rec code hmem hnone hin
    cases refCode with
    | none =>
      simp only [find_nearby_postal_codes_by_bounding] at h
      exact Except.noConfusion h
    | some c =>
      cases hhead2 : ((geocoded df0).filter fun p => p.2.postalCode == c).head? with
      | none =>
        simp only [find_nearby_postal_codes_by_bounding, hhead2] at h
        exact Except.noConfusion h
      | some r0 =>
        simp only [find_nearby_postal_codes_by_bounding, hhead2] at h
        split at h
        case isFalse => exact Except.noConfusion h
        case isTrue hall =>
          simp only [Except.ok.injEq] at h
          subst h
          obtain ⟨hnear, _⟩ := List.mem_filter.mp hin
          rcases List.mem_map.mp hnear with ⟨p, hp, hpx⟩
          obtain ⟨hgeo, _⟩ := List.mem_filter.mp hp
          have hpi : p.1 = i := congrArg Prod.fst hpx
          exact key i rec hmem hnone p.2 (by rw [← hpi]; exact hgeo)

/-- A dataset mixing a coordinate-complete row with a row that has no
latitude. -/
def mixedDf : List Record :=
  [⟨"10115", "Berlin", some 52, some 13⟩, ⟨"94043", "MV", none, some 1⟩]

/-- Witness for C8: the latitude-less row of `mixedDf` is in neither
variant's result. -/
theorem missing_coordinates_never_in_results_witness :
    ((1 : ℕ), "94043") ∉ ([] : List (ℕ × String)) ∧
    ((1 : ℕ), "10115") ∉ ([] : List (ℕ × String)) :=
  ⟨(missing_coordinates_never_in_results sqDist (fun _ => 1) mixedDf (some "10115")
      none 50 [] []).1
    (by simp [find_nearby_postal_codes_by_distance, referenceRows, geocoded, dropna,
      indexed, mixedDf, coord, sqDist, List.filter_cons, List.filter_nil, List.head?])
    1 ⟨"94043", "MV", none, some 1⟩ "94043"
    (by simp [indexed, mixedDf]) (Or.inl rfl),
   (missing_coordinates_never_in_results sqDist (fun _ => 1) mixedDf (some "10115")
      none 50 [] []).2
    (by simp [find_nearby_postal_codes_by_bounding, boundingPrefilter, inBoundingBox,
      geocoded, dropna, indexed, mixedDf, coord, List.filter_cons, List.filter_nil,
      List.head?]; norm_num)
    1 ⟨"94043", "MV", none, some 1⟩ "10115"
    (by simp [indexed, mixedDf]) (Or.inl rfl)⟩

/-! ### C9 -/

/-- Two coordinate-complete rows sharing the postal code `"A"` at different
coordinates. -/
def dupDistDf : List Record :=
  [⟨"A", "X", some 0, some 0⟩, ⟨"A", "X", some 0, some 3⟩]

/-- C9: the reference postal code itself can appear in the exact-distance
result.  Resolving `"A"` uses the first row's coordinates `(0, 0)`; the
second row with the same code lies at distance strictly between `0` and the
radius and contributes the pair `(1, "A")` to the result. -/
theorem reference_code_can_appear_in_result :
    0 < sqDist (coord (Record.mk "A" "X" (some 0) (some 3)))
        (coord (Record.mk "A" "X" (some 0) (some 0))) ∧
    sqDist (coord (Record.mk "A" "X" (some 0) (some 3)))
        (coord (Record.mk "A" "X" (some 0) (some 0))) < 50 ∧
    find_nearby_postal_codes_by_distance sqDist dupDistDf (some "A") none 50 =
      .ok [(1, "A")] := by
  refine ⟨by norm_num [sqDist, coord], by norm_num [sqDist, coord], ?_⟩
  simp [find_nearby_postal_codes_by_distance, referenceRows, geocoded, dropna,
    indexed, dupDistDf, coord, sqDist, List.filter_cons, List.filter_nil, List.head?]
  norm_num

/-! ### C10 -/

/-- Two rows sharing the reference code `"A"` whose coordinates are far
apart. -/
def dupFarDf : List Record :=
  [⟨"A", "X", some 0, some 0⟩, ⟨"A", "X", some 50, some 50⟩]

/-- Counterexample to C10: with `radius_km = 1 > 0` and reference latitude
`0` strictly inside `(-90, 90)`, the reference code resolves to TWO rows;
the second lies outside the box, so `drop(reference_row.index)` raises the
missing-label `KeyError` — the exclusion step can fail. -/
theorem bounding_drop_can_raise_for_duplicate_reference :
    find_nearby_postal_codes_by_bounding (fun _ => 1) dupFarDf (some "A") 1 =
      .error .keyError := by
  simp [find_nearby_postal_codes_by_bounding, boundingPrefilter, inBoundingBox,
    geocoded, dropna, indexed, dupFarDf, coord, List.filter_cons, List.filter_nil,
    List.head?]
  norm_num

/-- C10 as amended: when the reference postal code resolves to exactly one
row, `radius_km > 0`, and the cosine of the reference latitude is positive
(latitude strictly between −90 and 90 degrees), the resolved row itself
satisfies the inclusive box conditions, so the final `drop` finds its label
present and the search returns a normal result instead of `KeyError`. -/
theorem bounding_drop_safe_for_unique_reference
    (cosr : ℚ → ℚ) (df0 : List Record) (c : String)
    (radius_km : ℚ) (r0 : ℕ × Record)
    (huniq : ((geocoded df0).filter fun p => p.2.postalCode == c) = [r0])
    (hr : 0 < radius_km) (hcos : 0 < cosr (coord r0.2).1) :
    inBoundingBox cosr (coord r0.2).1 (coord r0.2).2 radius_km r0.2 = true ∧
    ∃ res, find_nearby_postal_codes_by_bounding cosr df0 (some c) radius_km =
      .ok res := by
  have hlatq : 0 < radius_km / 110.574 := div_pos hr (by norm_num)
  have hlonq : 0 < radius_km / (111.32 * cosr (coord r0.2).1) :=
    div_pos hr (mul_pos (by norm_num) hcos)
  have hbox : inBoundingBox cosr (coord r0.2).1 (coord r0.2).2 radius_km r0.2 = true := by
    simp only [inBoundingBox, Bool.and_eq_true, decide_eq_true_eq]
    refine ⟨⟨⟨by linarith, by linarith⟩, by linarith⟩, by linarith⟩
  have hmemfil : r0 ∈ (geocoded df0).filter fun p => p.2.postalCode == c := by
    rw [huniq]; exact List.mem_cons_self r0 []
  obtain ⟨hmem, _⟩ := List.mem_filter.mp hmemfil
  have hmm : r0.1 ∈ (((boundingPrefilter cosr (geocoded df0) (coord r0.2).1
      (coord r0.2).2 radius_km).map (fun p => (p.1, p.2.postalCode))).map Prod.fst) :=
    List.mem_map.mpr ⟨(r0.1, r0.2.postalCode),
      List.mem_map.mpr ⟨r0, List.mem_filter.mpr ⟨hmem, hbox⟩, rfl⟩, rfl⟩
  have hnear : (((boundingPrefilter cosr (geocoded df0) (coord r0.2).1
      (coord r0.2).2 radius_km).map (fun p => (p.1, p.2.postalCode))).map
      Prod.fst).contains r0.1 = true := (contains_eq_true_iff _ _).mpr hmm
  refine ⟨hbox, ?_⟩
  refine ⟨((boundingPrefilter cosr (geocoded df0) (coord r0.2).1 (coord r0.2).2
      radius_km).map fun p => (p.1, p.2.postalCode)).filter
      (fun q => !((([r0] : List (ℕ × Record)).map Prod.fst).contains q.1)), ?_⟩
  simp only [find_nearby_postal_codes_by_bounding, huniq, List.head?_cons,
    List.all_cons, List.all_nil, Bool.and_true, hnear, if_true]

/-- A dataset in which the reference code matches exactly one row. -/
def uniqueDf : List Record :=
  [⟨"A", "X", some 0, some 0⟩, ⟨"B", "X", some 40, some 40⟩]

/-- Witness for the amended C10 on a unique-reference dataset. -/
theorem bounding_drop_safe_for_unique_reference_witness :
    inBoundingBox (fun _ => 1)
      (coord ((0 : ℕ), Record.mk "A" "X" (some 0) (some 0)).2).1
      (coord ((0 : ℕ), Record.mk "A" "X" (some 0) (some 0)).2).2 1
      ((0 : ℕ), Record.mk "A" "X" (some 0) (some 0)).2 = true ∧
    ∃ res, find_nearby_postal_codes_by_bounding (fun _ => 1) uniqueDf (some "A") 1 =
      .ok res :=
  bounding_drop_safe_for_unique_reference (fun _ => 1) uniqueDf "A" 1
    ((0 : ℕ), Record.mk "A" "X" (some 0) (some 0))
    (by simp [geocoded, dropna, indexed, uniqueDf, List.filter_cons, List.filter_nil])
    (by norm_num) (by norm_num [coord])
